import Mathlib

/-!
Shallow embedding of the fcm-server repository: a small HTTP service that
manages "churrasco" gatherings (create, list by active/past status, details,
confirm/decline presence, pending invites, user registry) and dispatches FCM
notifications.  The embedding follows the database-backed variant in
src/unnamed/part_001 (the richest one: users, authentication, invites) and,
where a claim cites them, the in-memory variant of src/server.js and the
notification payload construction of src/server.js lines 38-54 and
src/unnamed/part_000 lines 171-181.

HTTP statuses are modelled as the bare numeric codes the handlers return;
stores (a Mongo collection keyed by `_id`, or the in-memory `Map`) are
association lists from identifier to record; a request-body field that may be
missing or fail `Array.isArray` is an `Option`; JavaScript truthiness of a
string is nonemptiness.
-/

namespace FcmServer

/-- Entry of `guestsConfirmed`: `{ name, items }` (schema line 41 of
src/unnamed/part_001). -/
structure Guest where
  name : String
  items : List String
deriving DecidableEq

/-- Gathering record per the `churrascoSchema` of src/unnamed/part_001
(lines 36-46).  `createdAt` is an abstract timestamp. -/
structure Churrasco where
  churrascoDate : String
  hora : String
  localName : String
  fornecidos : List String
  guestsConfirmed : List Guest
  guestsDeclined : List String
  invitedUsers : List String
  createdBy : String
  createdAt : Nat
deriving DecidableEq

/-- User record per the `userSchema` of src/unnamed/part_001 (lines 28-32). -/
structure User where
  username : String
  displayName : String
  fcmTokens : List String
deriving DecidableEq

/-- Persistence keyed by identifier, modelling the Mongo collection. -/
abbrev Store := List (String × Churrasco)

/-- Lookup by identifier, modelling `Churrasco.findById` / `churrascos.get`. -/
def findById {α : Type} (store : List (String × α)) (id : String) : Option α :=
  match store with
  | [] => none
  | p :: rest => if p.fst == id then some p.snd else findById rest id

/-- Replacement of the record stored under `id`, modelling `c.save()` /
`churrascos.set(id, c)`. -/
def updateById {α : Type} (store : List (String × α)) (id : String) (c : α) :
    List (String × α) :=
  match store with
  | [] => []
  | p :: rest =>
    if p.fst == id then (p.fst, c) :: updateById rest id c
    else p :: updateById rest id c

/-- View returned to the client by `mapChurrasco` (src/unnamed/part_001
lines 50-62). -/
structure ChurrascoView where
  id : String
  churrascoDate : String
  hora : String
  localName : String
  createdBy : String
  invitedUsers : List String
  fornecidosAgregados : List String
  guestsConfirmed : List Guest
  guestsDeclined : List String
deriving DecidableEq

/-- Embeds `mapChurrasco` of src/unnamed/part_001 lines 50-62. -/
def mapChurrasco (id : String) (c : Churrasco) : ChurrascoView :=
  { id := id
    churrascoDate := c.churrascoDate
    hora := c.hora
    localName := c.localName
    createdBy := c.createdBy
    invitedUsers := c.invitedUsers
    fornecidosAgregados := c.fornecidos
    guestsConfirmed := c.guestsConfirmed
    guestsDeclined := c.guestsDeclined }

/-- Embeds `POST /users/register` (src/unnamed/part_001 lines 71-85).
Validation rejects a missing (falsy) field with 400; a duplicate `username`
makes `User.create` throw the Mongo duplicate-key error `11000` (the schema
declares `username` unique, line 29), which the handler maps to status 400
with message Username ja existe (lines 80-82).  Success answers 200. -/
def registerUser (users : List User) (username displayName : String) :
    Nat × List User :=
  if username = "" ∨ displayName = "" then (400, users)
  else if users.any (fun u => u.username == username) then (400, users)
  else (200, users ++ [{ username := username, displayName := displayName, fcmTokens := [] }])

/-- Embeds `authMiddleware` (src/unnamed/part_001 lines 109-120): the
`X-User` header must be present, non-empty and name a registered user;
otherwise the request is answered 401.  On success `req.user` is the
caller's username. -/
def authUser (users : List User) (xUser : Option String) : Option String :=
  match xUser with
  | none => none
  | some name =>
    if name = "" then none
    else if users.any (fun u => u.username == name) then some name else none

/-- Embeds `POST /churrascos` (src/unnamed/part_001 lines 126-163) without
the best-effort FCM side effect.  `fornecidos`/`invitedUsers` are `none`
when the body field fails `Array.isArray`; `newId` stands for the fresh
Mongo `_id`, `nowTime` for `Date.now`.  Returns status, store and the id
echoed on success. -/
def createChurrasco (store : Store) (newId : String) (nowTime : Nat)
    (churrascoDate hora localName : String)
    (fornecidos invitedUsers : Option (List String)) (createdBy : String) :
    Nat × Store × Option String :=
  match fornecidos, invitedUsers with
  | some f, some inv =>
    if churrascoDate = "" ∨ hora = "" ∨ localName = "" then (400, store, none)
    else
      (201,
        store ++ [(newId,
          { churrascoDate := churrascoDate
            hora := hora
            localName := localName
            fornecidos := f
            guestsConfirmed := []
            guestsDeclined := []
            invitedUsers := inv
            createdBy := createdBy
            createdAt := nowTime })],
        some newId)
  | _, _ => (400, store, none)

/-- Digit value of a decimal digit character. -/
def digitVal (c : Char) : Nat := c.toNat - 48

/-- Accumulating decimal reading of a digit string; `none` on a non-digit. -/
def digitsVal (cs : List Char) (acc : Nat) : Option Nat :=
  match cs with
  | [] => some acc
  | c :: rest => if c.isDigit then digitsVal rest (acc * 10 + digitVal c) else none

/-- Models `Number(s)` on the numeric fragments of a well-formed
`DD/MM/YYYY` / `HH:MM` value: a non-empty all-digit string evaluates to its
decimal value, anything else (where JavaScript would yield `NaN`, or the
out-of-scope quirk cases) is unparseable. -/
def parseNumber (cs : List Char) : Option Nat :=
  match cs with
  | [] => none
  | _ => digitsVal cs 0

/-- Character-level split on a separator, modelling
`String.prototype.split(sep)` for a one-character separator (a trailing
separator yields a trailing empty component, as in JavaScript). -/
def splitChars (sep : Char) (cs : List Char) : List (List Char) :=
  match cs with
  | [] => [[]]
  | c :: rest =>
    let r := splitChars sep rest
    if c = sep then [] :: r
    else
      match r with
      | [] => [[c]]
      | g :: gs => (c :: g) :: gs

/-- Models the date destructuring of the listing handlers:
`const [d, m, y] = c.churrascoDate.split(sep).map(Number)`, demanding exactly
three numeric components. -/
def parseDate (s : String) : Option (Nat × Nat × Nat) :=
  match (splitChars '/' s.toList).map parseNumber with
  | [some d, some m, some y] => some (d, m, y)
  | _ => none

/-- Models `const [h, mi] = c.hora.split(sep).map(Number)`. -/
def parseTime (s : String) : Option (Nat × Nat) :=
  match (splitChars ':' s.toList).map parseNumber with
  | [some h, some mi] => some (h, mi)
  | _ => none

/-- Numeric encoding of the instant `new Date(y, m - 1, d, h, mi)`: strictly
monotone in the calendar order (y, m, d, h, mi) whenever the fields are in
range, which is all the comparisons of the listing handler observe. -/
def instantOf (y m d h mi : Nat) : Nat :=
  (((y * 13 + m) * 32 + d) * 24 + h) * 60 + mi

/-- Composed event instant of a gathering, `none` when date or time fails to
parse (in JavaScript the `Date` is then `NaN` and both comparisons below are
false). -/
def eventInstant (c : Churrasco) : Option Nat :=
  match parseDate c.churrascoDate, parseTime c.hora with
  | some (d, m, y), some (h, mi) => some (instantOf y m d h mi)
  | _, _ => none

/-- Embeds the filter of `GET /churrascos` (src/unnamed/part_001 lines
166-177, identically src/unnamed/part_000 lines 85-97 and the Mongo variant
of src/server.js lines 223-239): keep a gathering when
`status === 'active' ? dt >= now : dt < now`; a `NaN` date passes neither
comparison. -/
def classify (store : Store) (status : Option String) (now : Nat) : Store :=
  store.filter (fun p =>
    match eventInstant p.snd with
    | some t => if status = some ("active") then decide (now ≤ t) else decide (t < now)
    | none => false)

/-- Embeds the whole `GET /churrascos` response: the filtered records mapped
through `mapChurrasco`, always with status 200 (the only failure path is a
storage fault, outside this model). -/
def listChurrascosEndpoint (store : Store) (status : Option String) (now : Nat) :
    Nat × List ChurrascoView :=
  (200, (classify store status now).map (fun p => mapChurrasco p.fst p.snd))

/-- Embeds `GET /churrascos/:id` (src/unnamed/part_001 lines 184-194):
`none` is the 404 path. -/
def getChurrascoDetails (store : Store) (id : String) : Option ChurrascoView :=
  (findById store id).map (mapChurrasco id)

/-- Embeds `POST /churrascos/:id/confirm-presenca` (src/unnamed/part_001
lines 197-214): validation (400) strictly before the lookup (404), then the
two appends and `save`. -/
def confirmPresenca (store : Store) (id name : String)
    (selectedItems : Option (List String)) : Nat × Store :=
  match selectedItems with
  | none => (400, store)
  | some items =>
    if name = "" then (400, store)
    else
      match findById store id with
      | none => (404, store)
      | some c =>
        (200, updateById store id
          { c with
            guestsConfirmed := c.guestsConfirmed ++ [Guest.mk name items]
            fornecidos := c.fornecidos ++ items })

/-- Embeds `POST /churrascos/:id/decline-presenca` (src/unnamed/part_001
lines 217-233). -/
def declinePresenca (store : Store) (id name : String) : Nat × Store :=
  if name = "" then (400, store)
  else
    match findById store id with
    | none => (404, store)
    | some c =>
      (200, updateById store id
        { c with guestsDeclined := c.guestsDeclined ++ [name] })

/-- Sequence of `confirmPresenca` calls against one identifier, each call
running on the store the previous one produced. -/
def applyConfirms (store : Store) (id : String) (calls : List (String × List String)) :
    Store :=
  calls.foldl (fun s nc => (confirmPresenca s id nc.fst (some nc.snd)).snd) store

/-- Embeds the filter of `GET /users/:username/invites` (src/unnamed/part_001
lines 249-261): `Churrasco.find({ invitedUsers: u })` keeps the gatherings
whose `invitedUsers` array contains `u`, and the handler then drops those
where `u` is a confirmed guest name or a declined guest. -/
def pendingInvites (store : Store) (u : String) : Store :=
  (store.filter (fun p => p.snd.invitedUsers.contains u)).filter
    (fun p =>
      !(p.snd.guestsConfirmed.any (fun g => g.name == u)) &&
      !(p.snd.guestsDeclined.contains u))

/-- Pending invites as sent to the client. -/
def listPendingInvites (store : Store) (u : String) : List ChurrascoView :=
  (pendingInvites store u).map (fun p => mapChurrasco p.fst p.snd)

/-- Embeds the whole `GET /users/:username/invites` route including its
`authMiddleware`: 401 with no data when authentication fails, otherwise 200
with the pending invites of the *requested* username — the handler never
compares `req.user` with `req.params.username`. -/
def invitesEndpoint (users : List User) (store : Store) (xUser : Option String)
    (username : String) : Nat × Option (List ChurrascoView) :=
  match authUser users xUser with
  | none => (401, none)
  | some _ => (200, some (listPendingInvites store username))

/-- In-memory gathering record of src/server.js lines 72-83. -/
structure ChurrascoMem where
  id : String
  churrascoDate : String
  hora : String
  localName : String
  fornecidos : List String
  guestsConfirmed : List Guest
  guestsDeclined : List String
  createdBy : String
  createdByToken : String
  createdAt : Nat
deriving DecidableEq

/-- The in-memory `churrascos` Map of src/server.js. -/
abbrev StoreMem := List (String × ChurrascoMem)

/-- Embeds `POST /churrascos` of the in-memory variant (src/server.js lines
66-85); `newId` stands for `uuidv4()`. -/
def createChurrascoMem (store : StoreMem) (newId : String) (nowTime : Nat)
    (churrascoDate hora localName : String) (fornecidos : Option (List String))
    (userName token : String) : Nat × StoreMem :=
  match fornecidos with
  | none => (400, store)
  | some f =>
    if churrascoDate = "" ∨ hora = "" ∨ localName = "" ∨ userName = "" ∨ token = "" then
      (400, store)
    else
      (201, store ++ [(newId,
        { id := newId
          churrascoDate := churrascoDate
          hora := hora
          localName := localName
          fornecidos := f
          guestsConfirmed := []
          guestsDeclined := []
          createdBy := userName
          createdByToken := token
          createdAt := nowTime })])

/-- Embeds `POST /churrascos/:id/confirm-presenca` of the in-memory variant
(src/server.js lines 122-136): lookup (404) before validation (400). -/
def confirmPresencaMem (store : StoreMem) (id name : String)
    (selectedItems : Option (List String)) : Nat × StoreMem :=
  match findById store id with
  | none => (404, store)
  | some c =>
    if name = "" then (400, store)
    else
      match selectedItems with
      | none => (400, store)
      | some items =>
        (200, updateById store id
          { c with
            guestsConfirmed := c.guestsConfirmed ++ [Guest.mk name items]
            fornecidos := c.fornecidos ++ items })

/-- Embeds `POST /churrascos/:id/decline-presenca` of the in-memory variant
(src/server.js lines 138-148). -/
def declinePresencaMem (store : StoreMem) (id name : String) : Nat × StoreMem :=
  match findById store id with
  | none => (404, store)
  | some c =>
    if name = "" then (400, store)
    else
      (200, updateById store id
        { c with guestsDeclined := c.guestsDeclined ++ [name] })

/-- JavaScript value occurring in a notification `data` payload: a string,
an array of strings, or absent (`undefined`/`null`). -/
inductive JSVal where
  | vStr (s : String)
  | vArr (xs : List String)
  | undef
deriving DecidableEq

/-- Models the JavaScript expression `String(v || "")`: a falsy value
(absent, or the empty string) becomes the empty string, and an array — which
is truthy even when empty — stringifies as its elements joined with a comma
(`Array.prototype.toString`). -/
def strOrEmpty : JSVal → String
  | JSVal.vStr s => s
  | JSVal.vArr xs => String.intercalate (",") xs
  | JSVal.undef => ""

/-- Models `Array.isArray(v) ? v.flatten(",") : String(v || "")`, the guarded
form used for the item fields in src/server.js lines 46-51. -/
def coerceListField : JSVal → String
  | JSVal.vArr xs => String.intercalate (",") xs
  | v => strOrEmpty v

/-- Incoming `data` mapping of `POST /send-notification`. -/
structure NotifyPayload where
  id : JSVal
  churrascoDate : JSVal
  hora : JSVal
  localName : JSVal
  fornecidos : JSVal
  itensNaoFornecidos : JSVal
deriving DecidableEq

/-- Transmitted `message.data` of src/server.js lines 38-54: every field is
text by construction. -/
structure MessageData where
  title : String
  body : String
  id : String
  churrascoDate : String
  hora : String
  localName : String
  fornecidos : String
  itensNaoFornecidos : String
deriving DecidableEq

/-- Embeds the message construction of src/server.js lines 38-54. -/
def buildMessageData (title body : String) (data : NotifyPayload) : MessageData :=
  { title := title
    body := body
    id := strOrEmpty data.id
    churrascoDate := strOrEmpty data.churrascoDate
    hora := strOrEmpty data.hora
    localName := strOrEmpty data.localName
    fornecidos := coerceListField data.fornecidos
    itensNaoFornecidos := coerceListField data.itensNaoFornecidos }

/-- Transmitted `message.data` of src/unnamed/part_000 lines 173-179. -/
structure MessageDataP0 where
  id : String
  churrascoDate : String
  hora : String
  localName : String
  fornecidos : String
deriving DecidableEq

/-- Embeds the message construction of src/unnamed/part_000 lines 171-181,
where even `fornecidos` goes through plain `String(data.fornecidos || "")`
(whose array case still comma-joins, via `Array.prototype.toString`). -/
def buildMessageDataP0 (data : NotifyPayload) : MessageDataP0 :=
  { id := strOrEmpty data.id
    churrascoDate := strOrEmpty data.churrascoDate
    hora := strOrEmpty data.hora
    localName := strOrEmpty data.localName
    fornecidos := strOrEmpty data.fornecidos }

/-- Concrete gathering used by the witnesses, following spec scenario 1. -/
def sampleChurrasco : Churrasco :=
  { churrascoDate := "25/12/2025"
    hora := "20:00"
    localName := "Park"
    fornecidos := ["charcoal"]
    guestsConfirmed := []
    guestsDeclined := []
    invitedUsers := ["alice", "bob"]
    createdBy := "carol"
    createdAt := 0 }

/-- Concrete registered user for the counterexamples. -/
def aliceUser : User :=
  { username := "alice", displayName := "Alice", fcmTokens := [] }

/-- Concrete registered user for the counterexamples. -/
def bobUser : User :=
  { username := "bob", displayName := "Bob", fcmTokens := [] }

/-- Helper: looking up the updated key after `updateById` yields the new
record exactly when the key was present. -/
theorem findById_updateById_self {α : Type} (store : List (String × α)) (id : String)
    (c : α) :
    findById (updateById store id c) id = (findById store id).map (fun _ => c) := by
  induction store with
  | nil => rfl
  | cons p rest ih =>
    by_cases h : (p.fst == id) = true
    · simp [updateById, findById, h]
    · simp [updateById, findById, h, ih]

/-- Helper: `updateById` leaves every other key's lookup unchanged. -/
theorem findById_updateById_ne {α : Type} (store : List (String × α)) (id j : String)
    (c : α) (h : j ≠ id) :
    findById (updateById store id c) j = findById store j := by
  induction store with
  | nil => rfl
  | cons p rest ih =>
    by_cases hpid : (p.fst == id) = true
    · have hpj : (p.fst == j) = false := by
        rw [beq_iff_eq] at hpid
        subst hpid
        simpa [beq_iff_eq] using fun hj => h hj.symm
      simp [updateById, findById, hpid, hpj, ih]
    · simp [updateById, findById, hpid, ih]

/-- Helper: appending a record under a key absent from the store makes that
key's lookup find it. -/
theorem findById_append_fresh {α : Type} (store : List (String × α)) (id : String)
    (c : α) (hfresh : ∀ p ∈ store, p.fst ≠ id) :
    findById (store ++ [(id, c)]) id = some c := by
  induction store with
  | nil => simp [findById]
  | cons p rest ih =>
    have hp : (p.fst == id) = false := by
      simpa [beq_iff_eq] using hfresh p (by simp)
    rw [List.cons_append]
    simp only [findById, hp]
    exact ih (fun q hq => hfresh q (by simp [hq]))

/-- C3: `listPendingInvites(u)` keeps a stored gathering exactly when `u` is
invited, no confirmed guest entry carries the name `u`, and `u` has not
declined; in particular a gathering where `u` confirmed or declined is never
returned, even when `u` is invited. -/
theorem pending_invites_membership (store : Store) (u : String) (p : String × Churrasco) :
    p ∈ pendingInvites store u ↔
      p ∈ store ∧ u ∈ p.snd.invitedUsers ∧
      (∀ g ∈ p.snd.guestsConfirmed, g.name ≠ u) ∧ u ∉ p.snd.guestsDeclined := by
  simp only [pendingInvites, List.mem_filter, Bool.and_eq_true, Bool.not_eq_true',
    List.any_eq_false, List.contains, List.elem_eq_mem, decide_eq_true_eq,
    decide_eq_false_iff_not, beq_eq_false_iff_ne, ne_eq, and_assoc]
  constructor
  · rintro ⟨hmem, hinv, hconf, hdecl⟩
    exact ⟨hmem, hinv, fun g hg => by simpa using hconf g hg, hdecl⟩
  · rintro ⟨hmem, hinv, hconf, hdecl⟩
    exact ⟨hmem, hinv, fun g hg => by simpa using hconf g hg, hdecl⟩

/-- C4 counterexample: the authenticated caller alice requests the pending
invites of bob; the handler answers 200 with bob's invite data instead of
failing with 403. -/
theorem invites_cross_user_counterexample :
    (invitesEndpoint [aliceUser, bobUser] [("g1", sampleChurrasco)] (some ("alice"))
        "bob").fst = 200 ∧
    (invitesEndpoint [aliceUser, bobUser] [("g1", sampleChurrasco)] (some ("alice"))
        "bob").snd = some [mapChurrasco ("g1") sampleChurrasco] := by
  constructor <;> rfl

/-- C4 amended: the invites route checks only that the caller authenticates
as some registered user (401 otherwise); it never answers 403, and any
authenticated caller receives the requested username's pending invites,
whether or not the two coincide. -/
theorem invites_requires_only_authentication (users : List User) (store : Store)
    (xUser : Option String) (username : String) :
    (invitesEndpoint users store xUser username).fst ≠ 403 ∧
    (authUser users xUser = none →
      invitesEndpoint users store xUser username = (401, none)) ∧
    (∀ v, authUser users xUser = some v →
      invitesEndpoint users store xUser username =
        (200, some (listPendingInvites store username))) := by
  refine ⟨?_, ?_, ?_⟩
  · cases h : authUser users xUser <;> simp [invitesEndpoint, h]
  · intro h
    simp [invitesEndpoint, h]
  · intro v h
    simp [invitesEndpoint, h]

/-- C6 counterexample: registering alice succeeds with 200; registering the
same username again is rejected with status 400 — not 409 — and leaves the
user list unchanged. -/
theorem register_duplicate_counterexample :
    (registerUser [] "alice" "Alice").fst = 200 ∧
    (registerUser (registerUser [] "alice" "Alice").snd ("alice") ("Anna")).fst = 400 ∧
    (registerUser (registerUser [] "alice" "Alice").snd ("alice") ("Anna")).fst ≠ 409 ∧
    (registerUser (registerUser [] "alice" "Alice").snd ("alice") ("Anna")).snd =
      (registerUser [] "alice" "Alice").snd := by
  refine ⟨rfl, rfl, by decide, rfl⟩

/-- C6 amended: when the username is already registered, `registerUser`
fails with status 400 (the handler maps the duplicate-key error to 400) and
neither creates a new User record nor modifies any existing one. -/
theorem register_duplicate_rejected (users : List User) (username displayName : String)
    (hex : users.any (fun u => u.username == username) = true) :
    (registerUser users username displayName).fst = 400 ∧
    (registerUser users username displayName).snd = users := by
  unfold registerUser
  by_cases hempty : username = "" ∨ displayName = ""
  · simp [hempty]
  · simp [hempty, hex]

/-- Witness for the amended C6 theorem at a concrete duplicate. -/
theorem register_duplicate_rejected_witness :
    (registerUser [aliceUser] "alice" "Anna").fst = 400 ∧
    (registerUser [aliceUser] "alice" "Anna").snd = [aliceUser] :=
  register_duplicate_rejected [aliceUser] "alice" "Anna" (by decide)

/-- C8: every transmitted notification value is text: the two item fields
join an array value with a comma, every field falls back to the empty string
when its payload value is absent or empty, and the part_000 construction —
which stringifies the array directly — produces the same comma-joined text.
The transmitted records `MessageData` and `MessageDataP0` carry only
`String` fields, so no non-text value is ever transmitted. -/
theorem notify_payload_coercion (title body : String) (d : NotifyPayload) :
    (buildMessageData title body d).title = title ∧
    (buildMessageData title body d).body = body ∧
    (∀ xs, d.fornecidos = JSVal.vArr xs →
      (buildMessageData title body d).fornecidos = String.intercalate (",") xs) ∧
    (d.fornecidos = JSVal.undef ∨ d.fornecidos = JSVal.vStr "" →
      (buildMessageData title body d).fornecidos = "") ∧
    (∀ xs, d.itensNaoFornecidos = JSVal.vArr xs →
      (buildMessageData title body d).itensNaoFornecidos = String.intercalate (",") xs) ∧
    (d.itensNaoFornecidos = JSVal.undef ∨ d.itensNaoFornecidos = JSVal.vStr "" →
      (buildMessageData title body d).itensNaoFornecidos = "") ∧
    (d.id = JSVal.undef ∨ d.id = JSVal.vStr "" → (buildMessageData title body d).id = "") ∧
    (d.churrascoDate = JSVal.undef ∨ d.churrascoDate = JSVal.vStr "" →
      (buildMessageData title body d).churrascoDate = "") ∧
    (d.hora = JSVal.undef ∨ d.hora = JSVal.vStr "" →
      (buildMessageData title body d).hora = "") ∧
    (d.localName = JSVal.undef ∨ d.localName = JSVal.vStr "" →
      (buildMessageData title body d).localName = "") ∧
    (∀ xs, d.fornecidos = JSVal.vArr xs →
      (buildMessageDataP0 d).fornecidos = String.intercalate (",") xs) ∧
    (d.fornecidos = JSVal.undef ∨ d.fornecidos = JSVal.vStr "" →
      (buildMessageDataP0 d).fornecidos = "") := by
  obtain ⟨i, cd, ho, lo, fo, nf⟩ := d
  refine ⟨rfl, rfl, ?_, ?_, ?_, ?_, ?_, ?_, ?_, ?_, ?_, ?_⟩
  · rintro xs rfl; rfl
  · rintro (rfl | rfl) <;> rfl
  · rintro xs rfl; rfl
  · rintro (rfl | rfl) <;> rfl
  · rintro (rfl | rfl) <;> rfl
  · rintro (rfl | rfl) <;> rfl
  · rintro (rfl | rfl) <;> rfl
  · rintro (rfl | rfl) <;> rfl
  · rintro xs rfl; rfl
  · rintro (rfl | rfl) <;> rfl

/-- C1: after any sequence of successful confirmations against one
gathering, `fornecidos` is the initial items followed, in call order, by
every `selectedItems` argument, and `guestsConfirmed` gained exactly one
`{name, items}` entry per call, appended at the end in call order. -/
theorem confirm_presence_aggregation (store : Store) (id : String) (c : Churrasco)
    (calls : List (String × List String))
    (hc : findById store id = some c)
    (hnames : ∀ nc ∈ calls, nc.fst ≠ "") :
    findById (applyConfirms store id calls) id =
      some { c with
        fornecidos := c.fornecidos ++ (calls.map Prod.snd).flatten
        guestsConfirmed := c.guestsConfirmed ++
          calls.map (fun nc => Guest.mk nc.fst nc.snd) } := by
  induction calls generalizing store c with
  | nil =>
    simpa [applyConfirms] using hc
  | cons nc rest ih =>
    have hname : nc.fst ≠ "" := hnames nc (List.mem_cons_self nc rest)
    have hstep : (confirmPresenca store id nc.fst (some nc.snd)).snd =
        updateById store id
          { c with
            guestsConfirmed := c.guestsConfirmed ++ [Guest.mk nc.fst nc.snd]
            fornecidos := c.fornecidos ++ nc.snd } := by
      simp [confirmPresenca, hname, hc]
    have happ : applyConfirms store id (nc :: rest) =
        applyConfirms (confirmPresenca store id nc.fst (some nc.snd)).snd id rest := rfl
    rw [happ, hstep]
    have hc1 : findById (updateById store id
        { c with
          guestsConfirmed := c.guestsConfirmed ++ [Guest.mk nc.fst nc.snd]
          fornecidos := c.fornecidos ++ nc.snd }) id =
        some { c with
          guestsConfirmed := c.guestsConfirmed ++ [Guest.mk nc.fst nc.snd]
          fornecidos := c.fornecidos ++ nc.snd } := by
      rw [findById_updateById_self, hc]
      rfl
    rw [ih _ _ hc1 (fun q hq => hnames q (List.mem_cons_of_mem nc hq))]
    simp [List.append_assoc]

/-- Witness for C1: two concrete confirmations against the sample
gathering. -/
theorem confirm_presence_aggregation_witness :
    findById (applyConfirms [("g1", sampleChurrasco)] ("g1")
        [("alice", ["beer"]), ("bob", ["ice"])]) ("g1") =
      some { sampleChurrasco with
        fornecidos := sampleChurrasco.fornecidos ++
          ([("alice", ["beer"]), ("bob", ["ice"])].map Prod.snd).flatten
        guestsConfirmed := sampleChurrasco.guestsConfirmed ++
          [("alice", ["beer"]), ("bob", ["ice"])].map (fun nc => Guest.mk nc.fst nc.snd) } :=
  confirm_presence_aggregation [("g1", sampleChurrasco)] ("g1") sampleChurrasco
    [("alice", ["beer"]), ("bob", ["ice"])] (by decide) (by decide)

/-- C2: a stored gathering whose date and time parse is listed under
`status=active` exactly when its composed instant is at least `now` (so an
instant equal to `now` counts as active), under `status=past` exactly when
the instant is strictly before `now`, and it belongs to exactly one of the
two partitions. -/
theorem classify_partition (store : Store) (now : Nat) (p : String × Churrasco) (t : Nat)
    (hp : p ∈ store) (ht : eventInstant p.snd = some t) :
    (p ∈ classify store (some ("active")) now ↔ now ≤ t) ∧
    (p ∈ classify store (some ("past")) now ↔ t < now) ∧
    (p ∈ classify store (some ("active")) now ↔
      p ∉ classify store (some ("past")) now) := by
  have h1 : p ∈ classify store (some ("active")) now ↔ now ≤ t := by
    simp [classify, List.mem_filter, hp, ht]
  have h2 : p ∈ classify store (some ("past")) now ↔ t < now := by
    simp [classify, List.mem_filter, hp, ht]
  exact ⟨h1, h2, by rw [h1, h2]; omega⟩

/-- Witness for C2 at the sample gathering and `now = 0`. -/
theorem classify_partition_witness :
    (("g1", sampleChurrasco) ∈ classify [("g1", sampleChurrasco)] (some ("active")) 0 ↔
      0 ≤ instantOf 2025 12 25 20 0) ∧
    (("g1", sampleChurrasco) ∈ classify [("g1", sampleChurrasco)] (some ("past")) 0 ↔
      instantOf 2025 12 25 20 0 < 0) ∧
    (("g1", sampleChurrasco) ∈ classify [("g1", sampleChurrasco)] (some ("active")) 0 ↔
      ("g1", sampleChurrasco) ∉ classify [("g1", sampleChurrasco)] (some ("past")) 0) :=
  classify_partition [("g1", sampleChurrasco)] 0 ("g1", sampleChurrasco)
    (instantOf 2025 12 25 20 0) (by decide) (by decide)

/-- C5: a valid creation immediately followed by a details read returns the
submitted date, time, location, creator and invited users unmodified. -/
theorem create_getDetails_roundtrip (store : Store) (newId : String) (nowTime : Nat)
    (churrascoDate hora localName : String) (f inv : List String) (createdBy : String)
    (hd : churrascoDate ≠ "") (hh : hora ≠ "") (hl : localName ≠ "")
    (hfresh : ∀ p ∈ store, p.fst ≠ newId) :
    (createChurrasco store newId nowTime churrascoDate hora localName (some f)
        (some inv) createdBy).fst = 201 ∧
    (createChurrasco store newId nowTime churrascoDate hora localName (some f)
        (some inv) createdBy).snd.snd = some newId ∧
    getChurrascoDetails
        (createChurrasco store newId nowTime churrascoDate hora localName (some f)
          (some inv) createdBy).snd.fst newId =
      some { id := newId
             churrascoDate := churrascoDate
             hora := hora
             localName := localName
             createdBy := createdBy
             invitedUsers := inv
             fornecidosAgregados := f
             guestsConfirmed := []
             guestsDeclined := [] } := by
  have hcond : ¬(churrascoDate = "" ∨ hora = "" ∨ localName = "") := by
    simp [hd, hh, hl]
  simp only [createChurrasco, if_neg hcond]
  refine ⟨trivial, trivial, ?_⟩
  unfold getChurrascoDetails
  rw [findById_append_fresh _ _ _ hfresh]
  rfl

/-- Witness for C5 on an empty store, following spec scenario 1. -/
theorem create_getDetails_roundtrip_witness :
    (createChurrasco [] ("g1") 0 ("25/12/2025") ("20:00") ("Park") (some ["charcoal"])
        (some ["alice", "bob"]) ("carol")).fst = 201 ∧
    (createChurrasco [] ("g1") 0 ("25/12/2025") ("20:00") ("Park") (some ["charcoal"])
        (some ["alice", "bob"]) ("carol")).snd.snd = some ("g1") ∧
    getChurrascoDetails
        (createChurrasco [] ("g1") 0 ("25/12/2025") ("20:00") ("Park") (some ["charcoal"])
          (some ["alice", "bob"]) ("carol")).snd.fst ("g1") =
      some { id := "g1"
             churrascoDate := "25/12/2025"
             hora := "20:00"
             localName := "Park"
             createdBy := "carol"
             invitedUsers := ["alice", "bob"]
             fornecidosAgregados := ["charcoal"]
             guestsConfirmed := []
             guestsDeclined := [] } :=
  create_getDetails_roundtrip [] ("g1") 0 ("25/12/2025") ("20:00") ("Park") ["charcoal"]
    ["alice", "bob"] ("carol") (by decide) (by decide) (by decide) (by simp)

/-- C7: every 400/404 rejection of create, confirmPresence or
declinePresence — in the database-backed variant and in the in-memory
variant alike — is decided before any mutation, so the store after the error
response equals the store before the call. -/
theorem rejected_request_leaves_store_unchanged :
    (∀ (store : Store) (newId : String) (nowTime : Nat) (cd ho lo : String)
        (f inv : Option (List String)) (u : String),
      (createChurrasco store newId nowTime cd ho lo f inv u).fst ≠ 201 →
      (createChurrasco store newId nowTime cd ho lo f inv u).snd.fst = store) ∧
    (∀ (store : Store) (id name : String) (items : Option (List String)),
      (confirmPresenca store id name items).fst ≠ 200 →
      (confirmPresenca store id name items).snd = store) ∧
    (∀ (store : Store) (id name : String),
      (declinePresenca store id name).fst ≠ 200 →
      (declinePresenca store id name).snd = store) ∧
    (∀ (store : StoreMem) (newId : String) (nowTime : Nat) (cd ho lo : String)
        (f : Option (List String)) (userName tok : String),
      (createChurrascoMem store newId nowTime cd ho lo f userName tok).fst ≠ 201 →
      (createChurrascoMem store newId nowTime cd ho lo f userName tok).snd = store) ∧
    (∀ (store : StoreMem) (id name : String) (items : Option (List String)),
      (confirmPresencaMem store id name items).fst ≠ 200 →
      (confirmPresencaMem store id name items).snd = store) ∧
    (∀ (store : StoreMem) (id name : String),
      (declinePresencaMem store id name).fst ≠ 200 →
      (declinePresencaMem store id name).snd = store) := by
  refine ⟨?_, ?_, ?_, ?_, ?_, ?_⟩
  · intro store newId nowTime cd ho lo f inv u hne
    rcases f with _ | f
    · cases inv <;> rfl
    rcases inv with _ | inv
    · rfl
    by_cases hcond : cd = "" ∨ ho = "" ∨ lo = ""
    · simp [createChurrasco, hcond]
    · exact absurd (by simp [createChurrasco, hcond]) hne
  · intro store id name items hne
    rcases items with _ | items
    · rfl
    by_cases hname : name = ""
    · simp [confirmPresenca, hname]
    cases hcf : findById store id with
    | none => simp [confirmPresenca, hname, hcf]
    | some c => exact absurd (by simp [confirmPresenca, hname, hcf]) hne
  · intro store id name hne
    by_cases hname : name = ""
    · simp [declinePresenca, hname]
    cases hcf : findById store id with
    | none => simp [declinePresenca, hname, hcf]
    | some c => exact absurd (by simp [declinePresenca, hname, hcf]) hne
  · intro store newId nowTime cd ho lo f userName tok hne
    rcases f with _ | f
    · rfl
    by_cases hcond : cd = "" ∨ ho = "" ∨ lo = "" ∨ userName = "" ∨ tok = ""
    · simp [createChurrascoMem, hcond]
    · exact absurd (by simp [createChurrascoMem, hcond]) hne
  · intro store id name items hne
    cases hcf : findById store id with
    | none => simp [confirmPresencaMem, hcf]
    | some c =>
      by_cases hname : name = ""
      · simp [confirmPresencaMem, hcf, hname]
      rcases items with _ | items
      · simp [confirmPresencaMem, hcf, hname]
      · exact absurd (by simp [confirmPresencaMem, hcf, hname]) hne
  · intro store id name hne
    cases hcf : findById store id with
    | none => simp [declinePresencaMem, hcf]
    | some c =>
      by_cases hname : name = ""
      · simp [declinePresencaMem, hcf, hname]
      · exact absurd (by simp [declinePresencaMem, hcf, hname]) hne

/-- C9: in the database-backed listing, any status other than the exact
string active — the string past, an unrecognized value, or a missing
parameter — selects exactly the gatherings whose composed instant is
strictly before now, identically to `status=past`, and the request is
answered 200, never rejected. -/
theorem status_filter_default (store : Store) (status : Option String) (now : Nat)
    (h : status ≠ some ("active")) :
    listChurrascosEndpoint store status now =
      listChurrascosEndpoint store (some ("past")) now ∧
    classify store status now = store.filter (fun p =>
      match eventInstant p.snd with
      | some t => decide (t < now)
      | none => false) ∧
    (listChurrascosEndpoint store status now).fst = 200 := by
  have key : ∀ st : Option String, st ≠ some ("active") →
      classify store st now = store.filter (fun p =>
        match eventInstant p.snd with
        | some t => decide (t < now)
        | none => false) := by
    intro st hst
    unfold classify
    congr 1
    funext p
    cases hev : eventInstant p.snd
    · rfl
    · simp [hst]
  have hpast : (some ("past") : Option String) ≠ some ("active") := by decide
  refine ⟨?_, key status h, rfl⟩
  unfold listChurrascosEndpoint
  rw [key status h, key _ hpast]

/-- Witness for C9 with a missing status parameter. -/
theorem status_filter_default_witness :
    (listChurrascosEndpoint [("g1", sampleChurrasco)] none 0 =
      listChurrascosEndpoint [("g1", sampleChurrasco)] (some ("past")) 0) ∧
    (classify [("g1", sampleChurrasco)] none 0 =
      [("g1", sampleChurrasco)].filter (fun p =>
        match eventInstant p.snd with
        | some t => decide (t < 0)
        | none => false)) ∧
    ((listChurrascosEndpoint [("g1", sampleChurrasco)] none 0).fst = 200) :=
  status_filter_default [("g1", sampleChurrasco)] none 0 (by decide)

/-- C10: a successful decline changes only the targeted gathering, and of it
only `guestsDeclined`, which gains exactly `name` at its end; every other
field and every other gathering's record read back unchanged. -/
theorem decline_frame (store : Store) (id name : String) (c : Churrasco)
    (hname : name ≠ "") (hc : findById store id = some c) :
    (declinePresenca store id name).fst = 200 ∧
    findById (declinePresenca store id name).snd id =
      some { c with guestsDeclined := c.guestsDeclined ++ [name] } ∧
    ∀ j, j ≠ id → findById (declinePresenca store id name).snd j = findById store j := by
  have hres : declinePresenca store id name =
      (200, updateById store id { c with guestsDeclined := c.guestsDeclined ++ [name] }) := by
    simp [declinePresenca, hname, hc]
  refine ⟨by rw [hres], ?_, ?_⟩
  · rw [hres, findById_updateById_self, hc]
    rfl
  · intro j hj
    rw [hres]
    exact findById_updateById_ne store id j _ hj

/-- Witness for C10: bob declines the sample gathering. -/
theorem decline_frame_witness :
    (declinePresenca [("g1", sampleChurrasco)] ("g1") ("bob")).fst = 200 ∧
    findById (declinePresenca [("g1", sampleChurrasco)] ("g1") ("bob")).snd ("g1") =
      some { sampleChurrasco with
        guestsDeclined := sampleChurrasco.guestsDeclined ++ ["bob"] } ∧
    ∀ j, j ≠ "g1" →
      findById (declinePresenca [("g1", sampleChurrasco)] ("g1") ("bob")).snd j =
        findById [("g1", sampleChurrasco)] j :=
  decline_frame [("g1", sampleChurrasco)] ("g1") ("bob") sampleChurrasco
    (by decide) (by decide)

end FcmServer
